import Mathlib

/- Shallow embedding of drivers/hwmon/gpd-fan.c (GPD devices fan hwmon driver).

   EC port transactions are modelled by an oracle `EcOracle`: `readRet off` is
   the return code of `gpd_ecram_read` for register `off` (0 = success,
   negative = error), `readVal off` the byte it stores through its out pointer
   on success, `writeRet off v` the return code of `gpd_ecram_write`, and
   `junk off` the indeterminate content that a caller's uninitialized stack
   byte keeps when the read fails before storing anything.  Every driver
   function additionally returns the ordered list of EC register accesses it
   attempted (`Ev.rd` / `Ev.wr` events).  Jiffies are modelled as `Nat` and
   `time_after(a, b)` as `b < a` (wraparound of the jiffies counter is not
   modelled). -/

set_option linter.unusedVariables false

/-- One second worth of jiffies (the kernel configuration constant HZ; the
    driver only uses it as the "update per 1000 milliseconds" interval). -/
def HZ : Nat := 1000

/-- errno constant EINVAL. -/
def EINVAL : Int := 22

/-- errno constant EOPNOTSUPP. -/
def EOPNOTSUPP : Int := 95

/-- enum gpd_board, gpd-fan.c lines 33-37. -/
inductive gpd_board where
  | win_mini
  | win4_6800u
  | win_max_2
  deriving DecidableEq, Repr

/-- enum FAN_PWM_ENABLE, gpd-fan.c lines 39-43. -/
inductive FAN_PWM_ENABLE where
  | DISABLE
  | MANUAL
  | AUTOMATIC
  deriving DecidableEq, Repr

/-- struct gpd_board_quirk, gpd-fan.c lines 58-68. -/
structure gpd_board_quirk where
  board_name : String
  board : gpd_board
  addr_port : Nat
  data_port : Nat
  manual_control_enable : Nat
  rpm_read : Nat
  pwm_write : Nat
  pwm_max : Nat
  deriving DecidableEq, Repr

/-- gpd_win_mini_quirk, gpd-fan.c lines 70-80. -/
def gpd_win_mini_quirk : gpd_board_quirk :=
  { board_name := "win_mini"
  , board := .win_mini
  , addr_port := 0x4E
  , data_port := 0x4F
  , manual_control_enable := 0x047A
  , rpm_read := 0x0478
  , pwm_write := 0x047A
  , pwm_max := 244 }

/-- gpd_win4_quirk, gpd-fan.c lines 82-92. -/
def gpd_win4_quirk : gpd_board_quirk :=
  { board_name := "win4"
  , board := .win4_6800u
  , addr_port := 0x2E
  , data_port := 0x2F
  , manual_control_enable := 0xC311
  , rpm_read := 0xC880
  , pwm_write := 0xC311
  , pwm_max := 127 }

/-- gpd_wm2_quirk, gpd-fan.c lines 94-104. -/
def gpd_wm2_quirk : gpd_board_quirk :=
  { board_name := "wm2"
  , board := .win_max_2
  , addr_port := 0x4E
  , data_port := 0x4F
  , manual_control_enable := 0x0275
  , rpm_read := 0x0218
  , pwm_write := 0x1809
  , pwm_max := 184 }

/-- One attempted EC register access: a read of, or a write of byte `v` to,
    EC register `off` (one call of gpd_ecram_read / gpd_ecram_write). -/
inductive Ev where
  | rd (off : Nat)
  | wr (off : Nat) (v : Nat)
  deriving DecidableEq, Repr

/-- Oracle for the EC port transport (gpd_ecram_read / gpd_ecram_write,
    gpd-fan.c lines 153-213): outcome of each possible register access. -/
structure EcOracle where
  readRet : Nat → Int
  readVal : Nat → Nat
  writeRet : Nat → Nat → Int
  junk : Nat → Nat

/-- The byte a caller's u8 out-variable holds after `gpd_ecram_read ec off`:
    the port-read result on success, the uninitialized stack content
    otherwise (the C driver sometimes ignores the return code and uses the
    variable regardless).  The `% 256` models the u8 type of the variable. -/
def ecByte (ec : EcOracle) (off : Nat) : Nat :=
  (if ec.readRet off = 0 then ec.readVal off else ec.junk off) % 256

/-- The global driver state gpd_driver_priv, gpd-fan.c lines 45-56 (here
    passed and returned explicitly). -/
structure gpd_driver_state where
  pwm_enable : FAN_PWM_ENABLE
  pwm_value : Nat
  fan_speed_cached : Nat
  read_pwm_cached : Nat
  fan_speed_last_update : Nat
  read_pwm_last_update : Nat
  quirk : gpd_board_quirk
  deriving DecidableEq, Repr

/-- gpd_generic_read_rpm_uncached, gpd-fan.c lines 215-229: read the two RPM
    bytes (high then low), abort on the first failing read, combine
    big-endian. -/
def gpd_generic_read_rpm_uncached (ec : EcOracle) (q : gpd_board_quirk) :
    Int × List Ev :=
  if ec.readRet q.rpm_read ≠ 0 then
    (ec.readRet q.rpm_read, [Ev.rd q.rpm_read])
  else if ec.readRet (q.rpm_read + 1) ≠ 0 then
    (ec.readRet (q.rpm_read + 1), [Ev.rd q.rpm_read, Ev.rd (q.rpm_read + 1)])
  else
    (Int.ofNat (ecByte ec q.rpm_read * 256 + ecByte ec (q.rpm_read + 1)),
     [Ev.rd q.rpm_read, Ev.rd (q.rpm_read + 1)])

/-- The win4 pre-read fixup, gpd-fan.c lines 237-239: read register 0x1841
    (return code ignored), and if the resulting PWMCTR byte is not 0x7F,
    write 0x7F to it (write return code ignored as well). -/
def gpd_win4_fixup_trace (ec : EcOracle) : List Ev :=
  Ev.rd 0x1841 :: (if ecByte ec 0x1841 ≠ 0x7F then [Ev.wr 0x1841 0x7F] else [])

/-- The win4 zero-RPM re-initialization, gpd-fan.c lines 246-257: read the
    chip id at 0x2000 (return code ignored); if the byte equals 0x55, read
    0x1060 and, when that read returns NONZERO (i.e. fails), write the
    (then indeterminate) chip_ver byte OR-ed with 0x80 back to 0x1060. -/
def gpd_win4_reinit_trace (ec : EcOracle) : List Ev :=
  Ev.rd 0x2000 ::
    (if ecByte ec 0x2000 = 0x55 then
       Ev.rd 0x1060 ::
         (if ec.readRet 0x1060 ≠ 0 then
            [Ev.wr 0x1060 (Nat.lor (ecByte ec 0x1060) 0x80)]
          else [])
     else [])

/-- gpd_win4_read_rpm_uncached, gpd-fan.c lines 231-259. -/
def gpd_win4_read_rpm_uncached (ec : EcOracle) (q : gpd_board_quirk) :
    Int × List Ev :=
  let pre := gpd_win4_fixup_trace ec
  let g := gpd_generic_read_rpm_uncached ec q
  if g.1 < 0 then (g.1, pre ++ g.2)
  else if g.1 = 0 then (g.1, pre ++ g.2 ++ gpd_win4_reinit_trace ec)
  else (g.1, pre ++ g.2)

/-- One iteration of the wm2 pre-read fixup loop, gpd-fan.c lines 265-272:
    read the control register (return code ignored) and rewrite it to 0xB8
    if the byte is not 0xB8 (write return code ignored). -/
def gpd_wm2_fixup_trace (ec : EcOracle) (off : Nat) : List Ev :=
  Ev.rd off :: (if ecByte ec off ≠ 0xB8 then [Ev.wr off 0xB8] else [])

/-- gpd_wm2_read_rpm_uncached, gpd-fan.c lines 261-274. -/
def gpd_wm2_read_rpm_uncached (ec : EcOracle) (q : gpd_board_quirk) :
    Int × List Ev :=
  let g := gpd_generic_read_rpm_uncached ec q
  (g.1,
   gpd_wm2_fixup_trace ec 0x1841 ++ gpd_wm2_fixup_trace ec 0x1842 ++
     gpd_wm2_fixup_trace ec 0x1843 ++ g.2)

/-- The board dispatch switch inside gpd_read_rpm, gpd-fan.c lines 283-296. -/
def gpd_read_rpm_uncached (ec : EcOracle) (q : gpd_board_quirk) :
    Int × List Ev :=
  match q.board with
  | .win_mini => gpd_generic_read_rpm_uncached ec q
  | .win4_6800u => gpd_win4_read_rpm_uncached ec q
  | .win_max_2 => gpd_wm2_read_rpm_uncached ec q

/-- gpd_read_rpm, gpd-fan.c lines 277-305: refresh the cached fan speed only
    when `time_after(jiffies, fan_speed_last_update + HZ)`; on an uncached
    read failure return the error and leave the cache untouched; otherwise
    store the value into the u16 cache field and return that field. -/
def gpd_read_rpm (ec : EcOracle) (s : gpd_driver_state) (now : Nat) :
    Int × gpd_driver_state × List Ev :=
  if s.fan_speed_last_update + HZ < now then
    let r := gpd_read_rpm_uncached ec s.quirk
    if r.1 < 0 then (r.1, s, r.2)
    else
      (Int.ofNat (r.1.toNat % 65536),
       { s with fan_speed_cached := r.1.toNat % 65536
              , fan_speed_last_update := now },
       r.2)
  else (Int.ofNat s.fan_speed_cached, s, [])

/-- gpd_wm2_read_pwm_uncached, gpd-fan.c lines 307-317: read the raw PWM
    register byte and rescale it by `* 255 / pwm_max`. -/
def gpd_wm2_read_pwm_uncached (ec : EcOracle) (q : gpd_board_quirk) :
    Int × List Ev :=
  if ec.readRet q.pwm_write < 0 then
    (ec.readRet q.pwm_write, [Ev.rd q.pwm_write])
  else
    (Int.ofNat (ecByte ec q.pwm_write * 255 / q.pwm_max), [Ev.rd q.pwm_write])

/-- gpd_read_pwm, gpd-fan.c lines 320-341: win_mini and win4 report the
    stored pwm_value directly; win_max_2 refreshes a u8 cache field at most
    once a second from the uncached read and returns the cache field. -/
def gpd_read_pwm (ec : EcOracle) (s : gpd_driver_state) (now : Nat) :
    Int × gpd_driver_state × List Ev :=
  match s.quirk.board with
  | .win_mini => (Int.ofNat s.pwm_value, s, [])
  | .win4_6800u => (Int.ofNat s.pwm_value, s, [])
  | .win_max_2 =>
    if s.read_pwm_last_update + HZ < now then
      let r := gpd_wm2_read_pwm_uncached ec s.quirk
      if r.1 < 0 then (r.1, s, r.2)
      else
        (Int.ofNat (r.1.toNat % 256),
         { s with read_pwm_cached := r.1.toNat % 256
                , read_pwm_last_update := now },
         r.2)
    else (Int.ofNat s.read_pwm_cached, s, [])

/-- The raw EC duty byte computed by gpd_generic_write_pwm, gpd-fan.c
    line 349: `actual = val * (quirk->pwm_max - 1) / 255 + 1` stored into a
    u8 (hence the `% 256`). -/
def gpd_raw_pwm (q : gpd_board_quirk) (val : Nat) : Nat :=
  (val * (q.pwm_max - 1) / 255 + 1) % 256

/-- gpd_generic_write_pwm, gpd-fan.c lines 343-351. -/
def gpd_generic_write_pwm (ec : EcOracle) (q : gpd_board_quirk) (val : Nat) :
    Int × List Ev :=
  (ec.writeRet q.pwm_write (gpd_raw_pwm q val),
   [Ev.wr q.pwm_write (gpd_raw_pwm q val)])

/-- gpd_win_mini_write_pwm, gpd-fan.c lines 353-358: only writes in MANUAL
    mode, otherwise succeeds without touching the EC. -/
def gpd_win_mini_write_pwm (ec : EcOracle) (s : gpd_driver_state) (val : Nat) :
    Int × List Ev :=
  if s.pwm_enable = .MANUAL then gpd_generic_write_pwm ec s.quirk val
  else (0, [])

/-- gpd_wm2_write_pwm, gpd-fan.c lines 360-366: writes unless the mode is
    DISABLE, in which case it succeeds without touching the EC. -/
def gpd_wm2_write_pwm (ec : EcOracle) (s : gpd_driver_state) (val : Nat) :
    Int × List Ev :=
  if s.pwm_enable ≠ .DISABLE then gpd_generic_write_pwm ec s.quirk val
  else (0, [])

/-- gpd_write_pwm, gpd-fan.c lines 369-380. -/
def gpd_write_pwm (ec : EcOracle) (s : gpd_driver_state) (val : Nat) :
    Int × List Ev :=
  match s.quirk.board with
  | .win_mini => gpd_win_mini_write_pwm ec s val
  | .win4_6800u => gpd_generic_write_pwm ec s.quirk val
  | .win_max_2 => gpd_wm2_write_pwm ec s val

/-- gpd_win_mini_set_pwm_enable, gpd-fan.c lines 382-395. -/
def gpd_win_mini_set_pwm_enable (ec : EcOracle) (s : gpd_driver_state)
    (enable : FAN_PWM_ENABLE) : Int × List Ev :=
  match enable with
  | .DISABLE => gpd_generic_write_pwm ec s.quirk 255
  | .MANUAL => gpd_generic_write_pwm ec s.quirk s.pwm_value
  | .AUTOMATIC =>
    (ec.writeRet s.quirk.pwm_write 0, [Ev.wr s.quirk.pwm_write 0])

/-- gpd_wm2_set_pwm_enable, gpd-fan.c lines 397-426: in DISABLE and MANUAL
    the duty write comes first and a failure aborts the sequence before the
    manual-control-enable write. -/
def gpd_wm2_set_pwm_enable (ec : EcOracle) (s : gpd_driver_state)
    (enable : FAN_PWM_ENABLE) : Int × List Ev :=
  match enable with
  | .DISABLE =>
    let r := gpd_generic_write_pwm ec s.quirk 255
    if r.1 ≠ 0 then r
    else
      (ec.writeRet s.quirk.manual_control_enable 1,
       r.2 ++ [Ev.wr s.quirk.manual_control_enable 1])
  | .MANUAL =>
    let r := gpd_generic_write_pwm ec s.quirk s.pwm_value
    if r.1 ≠ 0 then r
    else
      (ec.writeRet s.quirk.manual_control_enable 1,
       r.2 ++ [Ev.wr s.quirk.manual_control_enable 1])
  | .AUTOMATIC =>
    (ec.writeRet s.quirk.manual_control_enable 0,
     [Ev.wr s.quirk.manual_control_enable 0])

/-- gpd_set_pwm_enable, gpd-fan.c lines 429-439. -/
def gpd_set_pwm_enable (ec : EcOracle) (s : gpd_driver_state)
    (enable : FAN_PWM_ENABLE) : Int × List Ev :=
  match s.quirk.board with
  | .win_mini => gpd_win_mini_set_pwm_enable ec s enable
  | .win4_6800u => gpd_win_mini_set_pwm_enable ec s enable
  | .win_max_2 => gpd_wm2_set_pwm_enable ec s enable

/-- The hwmon sensor types the driver's write callback dispatches on. -/
inductive HwmonSensorType where
  | hwmon_fan
  | hwmon_pwm
  deriving DecidableEq, Repr

/-- The hwmon attributes the driver's write callback dispatches on. -/
inductive HwmonAttr where
  | hwmon_fan_input
  | hwmon_pwm_enable
  | hwmon_pwm_input
  | hwmon_attr_other
  deriving DecidableEq, Repr

/-- The enum value the C assignment `gpd_driver_priv.pwm_enable = val`
    produces for val in {0,1,2}. -/
def gpd_mode_of_val (val : Int) : FAN_PWM_ENABLE :=
  if val = 0 then .DISABLE else if val = 1 then .MANUAL else .AUTOMATIC

/-- The kernel clamp_val macro: clamp v into [lo, hi]. -/
def clamp_val (v lo hi : Int) : Int := max lo (min v hi)

/-- gpd_fan_hwmon_write, gpd-fan.c lines 495-516: pwm1_enable validates
    `in_range(val, 0, 3)` (i.e. val in {0,1,2}), stores the mode, then runs
    the board transition handler; pwm1 clamps val to [0,255], stores it,
    then runs the (mode-gated) board write. -/
def gpd_fan_hwmon_write (ec : EcOracle) (s : gpd_driver_state)
    (typ : HwmonSensorType) (attr : HwmonAttr) (val : Int) :
    Int × gpd_driver_state × List Ev :=
  match typ with
  | .hwmon_pwm =>
    match attr with
    | .hwmon_pwm_enable =>
      if ¬(0 ≤ val ∧ val < 3) then (-EINVAL, s, [])
      else
        let s' := { s with pwm_enable := gpd_mode_of_val val }
        let r := gpd_set_pwm_enable ec s' s'.pwm_enable
        (r.1, s', r.2)
    | .hwmon_pwm_input =>
      let var := (clamp_val val 0 255).toNat
      let s' := { s with pwm_value := var }
      let r := gpd_write_pwm ec s' var
      (r.1, s', r.2)
    | _ => (-EOPNOTSUPP, s, [])
  | _ => (-EOPNOTSUPP, s, [])

/-- An EC oracle on which every access succeeds and every register reads 0. -/
def ecAllOk : EcOracle :=
  { readRet := fun _ => 0
  , readVal := fun _ => 0
  , writeRet := fun _ _ => 0
  , junk := fun _ => 0 }

/-- An EC oracle on which reads succeed (value 0) but every write fails
    with -4. -/
def ecWriteFail : EcOracle :=
  { readRet := fun _ => 0
  , readVal := fun _ => 0
  , writeRet := fun _ _ => -4
  , junk := fun _ => 0 }

/-- A driver state with the given quirk and mode, commanded duty 100 and
    empty caches. -/
def stOf (q : gpd_board_quirk) (m : FAN_PWM_ENABLE) : gpd_driver_state :=
  { pwm_enable := m
  , pwm_value := 100
  , fan_speed_cached := 0
  , read_pwm_cached := 0
  , fan_speed_last_update := 0
  , read_pwm_last_update := 0
  , quirk := q }

/-- A win4 EC snapshot: all accesses succeed, the RPM bytes are 0 (stalled
    fan), the chip id at 0x2000 is 0x55, register 0x1060 reads 0x12, and the
    fixup register 0x1841 already holds 0x7F. -/
def ecWin4Stall : EcOracle :=
  { readRet := fun _ => 0
  , readVal := fun off =>
      if off = 0x2000 then 0x55
      else if off = 0x1060 then 0x12
      else if off = 0x1841 then 0x7F
      else 0
  , writeRet := fun _ _ => 0
  , junk := fun _ => 0 }

/-- Like ecWin4Stall but the read of register 0x1060 fails with -4, leaving
    the caller's chip_ver byte at the indeterminate stack content 0x10. -/
def ecWin4StallFail : EcOracle :=
  { readRet := fun off => if off = 0x1060 then -4 else 0
  , readVal := fun off =>
      if off = 0x2000 then 0x55
      else if off = 0x1841 then 0x7F
      else 0
  , writeRet := fun _ _ => 0
  , junk := fun _ => 0x10 }

/-- A win4 EC snapshot where the fixup read of 0x1841 fails with -4 (the
    indeterminate stack byte happens to be 0x7F) and the RPM bytes read
    0x12 / 0x34. -/
def ecFixupFail : EcOracle :=
  { readRet := fun off => if off = 0x1841 then -4 else 0
  , readVal := fun off =>
      if off = 0xC880 then 0x12 else if off = 0xC881 then 0x34 else 0
  , writeRet := fun _ _ => 0
  , junk := fun _ => 0x7F }

/-- A win_mini driver state whose RPM cache holds 7 with last refresh at
    jiffy 0. -/
def sC4 : gpd_driver_state :=
  { pwm_enable := .AUTOMATIC
  , pwm_value := 255
  , fan_speed_cached := 7
  , read_pwm_cached := 0
  , fan_speed_last_update := 0
  , read_pwm_last_update := 0
  , quirk := gpd_win_mini_quirk }

/-- An EC oracle on which every access succeeds and the win_mini RPM
    registers read bytes 1 and 2 (RPM 258, different from sC4's cache). -/
def ecC4 : EcOracle :=
  { readRet := fun _ => 0
  , readVal := fun off => if off = 0x0478 then 1 else 2
  , writeRet := fun _ _ => 0
  , junk := fun _ => 0 }

/-- An EC oracle on which every access succeeds and every register reads
    184 (the wm2 maximum raw PWM value). -/
def ecWm2Full : EcOracle :=
  { readRet := fun _ => 0
  , readVal := fun _ => 184
  , writeRet := fun _ _ => 0
  , junk := fun _ => 0 }

theorem raw_pwm_no_wrap {m v : Nat} (hm : m ≤ 255) (hv : v ≤ 255) :
    v * (m - 1) / 255 + 1 < 256 := by
  have h1 : v * (m - 1) ≤ 255 * (m - 1) := Nat.mul_le_mul_right _ hv
  have h2 : v * (m - 1) / 255 ≤ 255 * (m - 1) / 255 := Nat.div_le_div_right h1
  have h3 : 255 * (m - 1) / 255 = m - 1 :=
    Nat.mul_div_cancel_left _ (by norm_num)
  omega

theorem gpd_raw_pwm_eq {q : gpd_board_quirk} (hm : q.pwm_max ≤ 255) {v : Nat}
    (hv : v ≤ 255) : gpd_raw_pwm q v = v * (q.pwm_max - 1) / 255 + 1 :=
  Nat.mod_eq_of_lt (raw_pwm_no_wrap hm hv)

theorem gpd_raw_pwm_mono {q : gpd_board_quirk} (hm : q.pwm_max ≤ 255)
    {v1 v2 : Nat} (h1 : v1 ≤ 255) (h2 : v2 ≤ 255) (hle : v1 ≤ v2) :
    gpd_raw_pwm q v1 ≤ gpd_raw_pwm q v2 := by
  rw [gpd_raw_pwm_eq hm h1, gpd_raw_pwm_eq hm h2]
  exact Nat.add_le_add_right (Nat.div_le_div_right (Nat.mul_le_mul_right _ hle)) 1

theorem gpd_generic_read_rpm_uncached_trace_ne_nil (ec : EcOracle)
    (q : gpd_board_quirk) : (gpd_generic_read_rpm_uncached ec q).2 ≠ [] := by
  unfold gpd_generic_read_rpm_uncached
  split
  · simp
  · split <;> simp

theorem gpd_win4_read_rpm_uncached_trace_ne_nil (ec : EcOracle)
    (q : gpd_board_quirk) : (gpd_win4_read_rpm_uncached ec q).2 ≠ [] := by
  simp only [gpd_win4_read_rpm_uncached, gpd_win4_fixup_trace]
  split
  · simp
  · split <;> simp

theorem gpd_wm2_read_rpm_uncached_trace_ne_nil (ec : EcOracle)
    (q : gpd_board_quirk) : (gpd_wm2_read_rpm_uncached ec q).2 ≠ [] := by
  simp only [gpd_wm2_read_rpm_uncached, gpd_wm2_fixup_trace]
  simp

theorem gpd_read_rpm_uncached_trace_ne_nil (ec : EcOracle)
    (q : gpd_board_quirk) : (gpd_read_rpm_uncached ec q).2 ≠ [] := by
  unfold gpd_read_rpm_uncached
  match q.board with
  | .win_mini => exact gpd_generic_read_rpm_uncached_trace_ne_nil ec q
  | .win4_6800u => exact gpd_win4_read_rpm_uncached_trace_ne_nil ec q
  | .win_max_2 => exact gpd_wm2_read_rpm_uncached_trace_ne_nil ec q

theorem gpd_win4_result_eq_generic (ec : EcOracle) (q : gpd_board_quirk) :
    (gpd_win4_read_rpm_uncached ec q).1 = (gpd_generic_read_rpm_uncached ec q).1 := by
  simp only [gpd_win4_read_rpm_uncached]
  split
  · rfl
  · split <;> rfl

theorem gpd_wm2_result_eq_generic (ec : EcOracle) (q : gpd_board_quirk) :
    (gpd_wm2_read_rpm_uncached ec q).1 = (gpd_generic_read_rpm_uncached ec q).1 := rfl

theorem gpd_wm2_read_pwm_uncached_trace (ec : EcOracle) (q : gpd_board_quirk) :
    (gpd_wm2_read_pwm_uncached ec q).2 = [Ev.rd q.pwm_write] := by
  unfold gpd_wm2_read_pwm_uncached
  split <;> rfl

/-- C1: on win4, with a stalled fan (RPM reads 0), chip id 0x55 at 0x2000 and
    a SUCCESSFUL read of the chip-version register 0x1060, the driver does
    NOT perform the claimed write of (value OR 0x80) back to 0x1060 (the
    error check at gpd-fan.c line 254 is inverted: the write only happens
    when the 0x1060 read fails, and then uses an indeterminate byte); the
    RPM value 0 is still returned in both scenarios. -/
theorem c1_win4_reinit_inverted_on_success :
    (ecWin4Stall.readRet 0x1060 = 0
      ∧ gpd_win4_read_rpm_uncached ecWin4Stall gpd_win4_quirk
          = (0, [Ev.rd 0x1841, Ev.rd 0xC880, Ev.rd 0xC881, Ev.rd 0x2000,
                 Ev.rd 0x1060]))
    ∧ (ecWin4StallFail.readRet 0x1060 = -4
      ∧ gpd_win4_read_rpm_uncached ecWin4StallFail gpd_win4_quirk
          = (0, [Ev.rd 0x1841, Ev.rd 0xC880, Ev.rd 0xC881, Ev.rd 0x2000,
                 Ev.rd 0x1060, Ev.wr 0x1060 0x90])) := by
  decide

/-- C2 counterexample: on win4, the pre-read fixup read of register 0x1841
    fails with -4, yet the remaining steps of the sequence are not aborted
    and the RPM value 0x1234 (not the error) is returned to the caller. -/
theorem c2_fixup_failure_not_aborting :
    ecFixupFail.readRet 0x1841 = -4
    ∧ gpd_win4_read_rpm_uncached ecFixupFail gpd_win4_quirk
        = (0x1234, [Ev.rd 0x1841, Ev.rd 0xC880, Ev.rd 0xC881]) := by
  decide

/-- C2 (amended): failures in the win4 / win-max-2 pre-read fixups are
    ignored (the fixup outcome never changes the returned RPM value), while
    a failure in the two-byte RPM read or in a wm2 set-mode write sequence
    aborts the remaining steps of that sequence and returns the error, with
    no retry (each access is attempted at most once, as the traces show). -/
theorem c2_sequence_abort_semantics (ec : EcOracle) (s : gpd_driver_state)
    (q : gpd_board_quirk) :
    ((gpd_generic_write_pwm ec s.quirk 255).1 ≠ 0 →
       gpd_wm2_set_pwm_enable ec s .DISABLE = gpd_generic_write_pwm ec s.quirk 255)
    ∧ ((gpd_generic_write_pwm ec s.quirk s.pwm_value).1 ≠ 0 →
       gpd_wm2_set_pwm_enable ec s .MANUAL
         = gpd_generic_write_pwm ec s.quirk s.pwm_value)
    ∧ (ec.readRet q.rpm_read ≠ 0 →
       gpd_generic_read_rpm_uncached ec q
         = (ec.readRet q.rpm_read, [Ev.rd q.rpm_read]))
    ∧ (ec.readRet q.rpm_read = 0 → ec.readRet (q.rpm_read + 1) ≠ 0 →
       gpd_generic_read_rpm_uncached ec q
         = (ec.readRet (q.rpm_read + 1),
            [Ev.rd q.rpm_read, Ev.rd (q.rpm_read + 1)]))
    ∧ (gpd_win4_read_rpm_uncached ec q).1 = (gpd_generic_read_rpm_uncached ec q).1
    ∧ (gpd_wm2_read_rpm_uncached ec q).1 = (gpd_generic_read_rpm_uncached ec q).1 := by
  refine ⟨?_, ?_, ?_, ?_, gpd_win4_result_eq_generic ec q,
    gpd_wm2_result_eq_generic ec q⟩
  · intro h
    simp only [gpd_wm2_set_pwm_enable, if_pos h]
  · intro h
    simp only [gpd_wm2_set_pwm_enable, if_pos h]
  · intro h
    simp only [gpd_generic_read_rpm_uncached, if_pos h]
  · intro h h'
    simp only [gpd_generic_read_rpm_uncached, h, if_pos h']
    simp

/-- C2 witness: with an EC on which every write fails with -4, the wm2
    DISABLE transition aborts after the failed duty write; and with the
    fixup-failure EC the first RPM byte read failure aborts the generic
    RPM read (using a quirk whose rpm register is the failing 0x1841). -/
theorem c2_sequence_abort_semantics_witness :
    gpd_wm2_set_pwm_enable ecWriteFail (stOf gpd_wm2_quirk .AUTOMATIC) .DISABLE
      = gpd_generic_write_pwm ecWriteFail (stOf gpd_wm2_quirk .AUTOMATIC).quirk 255
    ∧ gpd_generic_read_rpm_uncached ecFixupFail
        { gpd_win4_quirk with rpm_read := 0x1841 }
      = (ecFixupFail.readRet 0x1841, [Ev.rd 0x1841]) :=
  ⟨(c2_sequence_abort_semantics ecWriteFail (stOf gpd_wm2_quirk .AUTOMATIC)
      gpd_wm2_quirk).1 (by decide),
   (c2_sequence_abort_semantics ecFixupFail (stOf gpd_wm2_quirk .AUTOMATIC)
      { gpd_win4_quirk with rpm_read := 0x1841 }).2.2.1 (by decide)⟩

/-- C3 counterexample: the mapping is not strictly monotonic: on win_mini
    the duty values 0 and 1 both map to the raw EC value 1. -/
theorem c3_not_strictly_monotonic :
    gpd_raw_pwm gpd_win_mini_quirk 0 = 1
    ∧ gpd_raw_pwm gpd_win_mini_quirk 1 = 1 := by
  decide

/-- C3 (amended): for every board profile and duty val in [0,255] the raw
    PWM byte written to the EC equals val * (pwm_max - 1) / 255 + 1 with
    integer truncation; the mapping sends 0 to 1 and 255 to pwm_max and is
    monotone (non-decreasing, not strictly increasing). -/
theorem c3_pwm_mapping_monotone (ec : EcOracle) (q : gpd_board_quirk)
    (hq : q = gpd_win_mini_quirk ∨ q = gpd_win4_quirk ∨ q = gpd_wm2_quirk)
    (v1 v2 : Nat) (h1 : v1 ≤ 255) (h2 : v2 ≤ 255) (hle : v1 ≤ v2) :
    gpd_generic_write_pwm ec q v1
        = (ec.writeRet q.pwm_write (gpd_raw_pwm q v1),
           [Ev.wr q.pwm_write (gpd_raw_pwm q v1)])
    ∧ gpd_raw_pwm q v1 = v1 * (q.pwm_max - 1) / 255 + 1
    ∧ gpd_raw_pwm q 0 = 1
    ∧ gpd_raw_pwm q 255 = q.pwm_max
    ∧ gpd_raw_pwm q v1 ≤ gpd_raw_pwm q v2 := by
  rcases hq with h | h | h <;> subst h <;>
    exact ⟨rfl, gpd_raw_pwm_eq (by decide) h1, by decide, by decide,
      gpd_raw_pwm_mono (by decide) h1 h2 hle⟩

/-- C3 witness: instance of the amended mapping properties at val 10 and 20
    on win_mini. -/
theorem c3_pwm_mapping_monotone_witness :
    gpd_generic_write_pwm ecAllOk gpd_win_mini_quirk 10
        = (ecAllOk.writeRet gpd_win_mini_quirk.pwm_write
             (gpd_raw_pwm gpd_win_mini_quirk 10),
           [Ev.wr gpd_win_mini_quirk.pwm_write (gpd_raw_pwm gpd_win_mini_quirk 10)])
    ∧ gpd_raw_pwm gpd_win_mini_quirk 10
        = 10 * (gpd_win_mini_quirk.pwm_max - 1) / 255 + 1
    ∧ gpd_raw_pwm gpd_win_mini_quirk 0 = 1
    ∧ gpd_raw_pwm gpd_win_mini_quirk 255 = gpd_win_mini_quirk.pwm_max
    ∧ gpd_raw_pwm gpd_win_mini_quirk 10 ≤ gpd_raw_pwm gpd_win_mini_quirk 20 :=
  c3_pwm_mapping_monotone ecAllOk gpd_win_mini_quirk (Or.inl rfl) 10 20
    (by decide) (by decide) (by decide)

/-- C4 counterexample: with the RPM cache last refreshed at jiffy 0 and
    holding 7, a read at jiffy HZ (elapsed time exactly one second, so the
    claimed "meets or exceeds" condition holds) performs no hardware access
    and returns the stale 7, although the EC would report 258. -/
theorem c4_exact_interval_no_refresh :
    gpd_read_rpm ecC4 sC4 (sC4.fan_speed_last_update + HZ) = (7, sC4, [])
    ∧ (gpd_read_rpm_uncached ecC4 sC4.quirk).1 = 258 := by
  decide

/-- C4 (amended): a cached read performs hardware accesses exactly when the
    elapsed time since the last refresh STRICTLY exceeds one second
    (time_after is a strict comparison); otherwise the cached value is
    returned with the state unchanged and no hardware access; on a refresh,
    failure leaves the cache untouched and success stores the new value and
    timestamp.  Stated for the RPM cache (all boards) and the win-max-2 PWM
    cache. -/
theorem c4_cache_refresh_strict (ec : EcOracle) (s : gpd_driver_state)
    (now : Nat) :
    (¬ s.fan_speed_last_update + HZ < now →
       gpd_read_rpm ec s now = (Int.ofNat s.fan_speed_cached, s, []))
    ∧ (s.fan_speed_last_update + HZ < now →
       (gpd_read_rpm ec s now).2.2 = (gpd_read_rpm_uncached ec s.quirk).2
       ∧ (gpd_read_rpm ec s now).2.2 ≠ []
       ∧ ((gpd_read_rpm_uncached ec s.quirk).1 < 0 →
            (gpd_read_rpm ec s now).2.1 = s)
       ∧ (0 ≤ (gpd_read_rpm_uncached ec s.quirk).1 →
            (gpd_read_rpm ec s now).2.1.fan_speed_cached
                = (gpd_read_rpm_uncached ec s.quirk).1.toNat % 65536
            ∧ (gpd_read_rpm ec s now).2.1.fan_speed_last_update = now))
    ∧ (s.quirk.board = .win_max_2 →
       (¬ s.read_pwm_last_update + HZ < now →
          gpd_read_pwm ec s now = (Int.ofNat s.read_pwm_cached, s, []))
       ∧ (s.read_pwm_last_update + HZ < now →
          (gpd_read_pwm ec s now).2.2 ≠ []
          ∧ ((gpd_wm2_read_pwm_uncached ec s.quirk).1 < 0 →
               (gpd_read_pwm ec s now).2.1 = s)
          ∧ (0 ≤ (gpd_wm2_read_pwm_uncached ec s.quirk).1 →
               (gpd_read_pwm ec s now).2.1.read_pwm_cached
                   = (gpd_wm2_read_pwm_uncached ec s.quirk).1.toNat % 256
               ∧ (gpd_read_pwm ec s now).2.1.read_pwm_last_update = now))) := by
  have hrpm := gpd_read_rpm_uncached_trace_ne_nil ec s.quirk
  have hpwmtr := gpd_wm2_read_pwm_uncached_trace ec s.quirk
  refine ⟨?_, ?_, ?_⟩
  · intro h
    simp only [gpd_read_rpm]
    rw [if_neg h]
  · intro h
    simp only [gpd_read_rpm]
    rw [if_pos h]
    by_cases hr : (gpd_read_rpm_uncached ec s.quirk).1 < 0
    · rw [if_pos hr]
      exact ⟨rfl, hrpm, fun _ => rfl, fun h0 => absurd hr (by omega)⟩
    · rw [if_neg hr]
      exact ⟨rfl, hrpm, fun hlt => absurd hlt hr, fun _ => ⟨rfl, rfl⟩⟩
  · intro hb
    simp only [gpd_read_pwm, hb]
    refine ⟨fun h => by rw [if_neg h], fun h => ?_⟩
    rw [if_pos h]
    by_cases hr : (gpd_wm2_read_pwm_uncached ec s.quirk).1 < 0
    · rw [if_pos hr]
      exact ⟨by simp [hpwmtr], fun _ => rfl, fun h0 => absurd hr (by omega)⟩
    · rw [if_neg hr]
      exact ⟨by simp [hpwmtr], fun hlt => absurd hlt hr, fun _ => ⟨rfl, rfl⟩⟩

/-- C4 witness: one jiffy past the interval the RPM cache refreshes: the
    hardware is accessed and the new value 258 with timestamp HZ + 1 is
    stored. -/
theorem c4_cache_refresh_strict_witness :
    (gpd_read_rpm ecC4 sC4 (HZ + 1)).2.2 = (gpd_read_rpm_uncached ecC4 sC4.quirk).2
    ∧ (gpd_read_rpm ecC4 sC4 (HZ + 1)).2.2 ≠ []
    ∧ ((gpd_read_rpm_uncached ecC4 sC4.quirk).1 < 0 →
         (gpd_read_rpm ecC4 sC4 (HZ + 1)).2.1 = sC4)
    ∧ (0 ≤ (gpd_read_rpm_uncached ecC4 sC4.quirk).1 →
         (gpd_read_rpm ecC4 sC4 (HZ + 1)).2.1.fan_speed_cached
             = (gpd_read_rpm_uncached ecC4 sC4.quirk).1.toNat % 65536
         ∧ (gpd_read_rpm ecC4 sC4 (HZ + 1)).2.1.fan_speed_last_update = HZ + 1) :=
  (c4_cache_refresh_strict ecC4 sC4 (HZ + 1)).2.1 (by decide)

/-- C5: every PWM duty value returned by a successful gpd_read_pwm is in
    [0,255], for every board and every raw byte the EC may deliver (the
    win-max-2 path truncates the rescaled value into the u8 cache field
    before returning it). -/
theorem c5_read_pwm_in_range (ec : EcOracle) (s : gpd_driver_state) (now : Nat)
    (hpv : s.pwm_value ≤ 255) (hc : s.read_pwm_cached ≤ 255) :
    0 ≤ (gpd_read_pwm ec s now).1 → (gpd_read_pwm ec s now).1 ≤ 255 := by
  cases hb : s.quirk.board with
  | win_mini =>
    simp only [gpd_read_pwm, hb, Int.ofNat_eq_natCast]
    intro _
    omega
  | win4_6800u =>
    simp only [gpd_read_pwm, hb, Int.ofNat_eq_natCast]
    intro _
    omega
  | win_max_2 =>
    simp only [gpd_read_pwm, hb]
    by_cases ht : s.read_pwm_last_update + HZ < now
    · rw [if_pos ht]
      by_cases hr : (gpd_wm2_read_pwm_uncached ec s.quirk).1 < 0
      · rw [if_pos hr]
        intro h0
        omega
      · rw [if_neg hr]
        simp only [Int.ofNat_eq_natCast]
        intro _
        have := Nat.mod_lt ((gpd_wm2_read_pwm_uncached ec s.quirk).1.toNat)
          (y := 256) (by norm_num)
        omega
    · rw [if_neg ht]
      simp only [Int.ofNat_eq_natCast]
      intro _
      omega

/-- C5 witness: on win-max-2 with the raw PWM register reading 184, the
    (refreshing) cached read returns a value that is at most 255. -/
theorem c5_read_pwm_in_range_witness :
    (gpd_read_pwm ecWm2Full (stOf gpd_wm2_quirk .AUTOMATIC) (HZ + 1)).1 ≤ 255 :=
  c5_read_pwm_in_range ecWm2Full (stOf gpd_wm2_quirk .AUTOMATIC) (HZ + 1)
    (by decide) (by decide) (by decide)

/-- C6: a successful wm2 uncached PWM read reports raw * 255 / pwm_max of
    the byte read from the PWM register; writing duty 255 produces the raw
    byte pwm_max (184), and reading that raw value back reports exactly 255
    (within 1 of 255). -/
theorem c6_wm2_pwm_scale_roundtrip (ec : EcOracle)
    (h : ec.readRet gpd_wm2_quirk.pwm_write = 0) :
    gpd_wm2_read_pwm_uncached ec gpd_wm2_quirk
      = (Int.ofNat (ecByte ec gpd_wm2_quirk.pwm_write * 255 / gpd_wm2_quirk.pwm_max),
         [Ev.rd gpd_wm2_quirk.pwm_write])
    ∧ gpd_raw_pwm gpd_wm2_quirk 255 = gpd_wm2_quirk.pwm_max
    ∧ (ecByte ec gpd_wm2_quirk.pwm_write = gpd_raw_pwm gpd_wm2_quirk 255 →
        (gpd_wm2_read_pwm_uncached ec gpd_wm2_quirk).1 = 255) := by
  have hnot : ¬ ec.readRet gpd_wm2_quirk.pwm_write < 0 := by
    rw [h]
    omega
  refine ⟨?_, by decide, ?_⟩
  · unfold gpd_wm2_read_pwm_uncached
    rw [if_neg hnot]
  · intro he
    unfold gpd_wm2_read_pwm_uncached
    rw [if_neg hnot]
    show Int.ofNat (ecByte ec gpd_wm2_quirk.pwm_write * 255 / gpd_wm2_quirk.pwm_max)
        = 255
    rw [he]
    decide

/-- C6 witness: reading back raw byte 184 on wm2 reports duty 255. -/
theorem c6_wm2_pwm_scale_roundtrip_witness :
    (gpd_wm2_read_pwm_uncached ecWm2Full gpd_wm2_quirk).1 = 255 :=
  (c6_wm2_pwm_scale_roundtrip ecWm2Full (by decide)).2.2 (by decide)

/-- C7: gpd_write_pwm is mode-gated per board: win_mini writes only in
    MANUAL mode and otherwise succeeds with no hardware access; win4 always
    writes; win_max_2 writes in every mode except DISABLE, where it
    succeeds with no hardware access.  The issued write is the single EC
    write of the scaled raw byte to the PWM register. -/
theorem c7_write_pwm_mode_gating (ec : EcOracle) (s : gpd_driver_state)
    (val : Nat) :
    (s.quirk.board = .win_mini → s.pwm_enable = .MANUAL →
        gpd_write_pwm ec s val = gpd_generic_write_pwm ec s.quirk val)
    ∧ (s.quirk.board = .win_mini → s.pwm_enable ≠ .MANUAL →
        gpd_write_pwm ec s val = (0, []))
    ∧ (s.quirk.board = .win4_6800u →
        gpd_write_pwm ec s val = gpd_generic_write_pwm ec s.quirk val)
    ∧ (s.quirk.board = .win_max_2 → s.pwm_enable ≠ .DISABLE →
        gpd_write_pwm ec s val = gpd_generic_write_pwm ec s.quirk val)
    ∧ (s.quirk.board = .win_max_2 → s.pwm_enable = .DISABLE →
        gpd_write_pwm ec s val = (0, []))
    ∧ (gpd_generic_write_pwm ec s.quirk val).2
        = [Ev.wr s.quirk.pwm_write (gpd_raw_pwm s.quirk val)] := by
  refine ⟨?_, ?_, ?_, ?_, ?_, rfl⟩
  · intro hb hm
    simp only [gpd_write_pwm, hb, gpd_win_mini_write_pwm]
    rw [if_pos hm]
  · intro hb hm
    simp only [gpd_write_pwm, hb, gpd_win_mini_write_pwm]
    rw [if_neg hm]
  · intro hb
    simp only [gpd_write_pwm, hb]
  · intro hb hm
    simp only [gpd_write_pwm, hb, gpd_wm2_write_pwm]
    rw [if_pos hm]
  · intro hb hm
    simp only [gpd_write_pwm, hb, gpd_wm2_write_pwm]
    rw [if_neg (not_not_intro hm)]

/-- C7 witness: on win_mini in AUTOMATIC mode the write is a no-op success;
    on win_max_2 in MANUAL mode the EC write is issued. -/
theorem c7_write_pwm_mode_gating_witness :
    gpd_write_pwm ecAllOk (stOf gpd_win_mini_quirk .AUTOMATIC) 10 = (0, [])
    ∧ gpd_write_pwm ecAllOk (stOf gpd_wm2_quirk .MANUAL) 10
        = gpd_generic_write_pwm ecAllOk (stOf gpd_wm2_quirk .MANUAL).quirk 10 :=
  ⟨(c7_write_pwm_mode_gating ecAllOk (stOf gpd_win_mini_quirk .AUTOMATIC) 10).2.1
      rfl (by decide),
   (c7_write_pwm_mode_gating ecAllOk (stOf gpd_wm2_quirk .MANUAL) 10).2.2.2.1
      rfl (by decide)⟩

/-- C8: writing pwm1_enable with a value outside {0,1,2} fails with -EINVAL,
    leaves the state (including the stored mode) unchanged and performs no
    hardware access; a value in {0,1,2} is accepted and stored as the mode. -/
theorem c8_set_mode_validation (ec : EcOracle) (s : gpd_driver_state)
    (val : Int) :
    (¬(0 ≤ val ∧ val < 3) →
       gpd_fan_hwmon_write ec s .hwmon_pwm .hwmon_pwm_enable val
         = (-EINVAL, s, []))
    ∧ (0 ≤ val ∧ val < 3 →
       (gpd_fan_hwmon_write ec s .hwmon_pwm .hwmon_pwm_enable val).2.1
         = { s with pwm_enable := gpd_mode_of_val val }) := by
  constructor
  · intro h
    simp only [gpd_fan_hwmon_write]
    rw [if_pos h]
  · intro h
    simp only [gpd_fan_hwmon_write]
    rw [if_neg (not_not_intro h)]

/-- C8 witness: value 5 is rejected with -EINVAL and no state change; value
    1 is accepted and stored as MANUAL. -/
theorem c8_set_mode_validation_witness :
    gpd_fan_hwmon_write ecAllOk (stOf gpd_win_mini_quirk .AUTOMATIC)
        .hwmon_pwm .hwmon_pwm_enable 5
      = (-EINVAL, stOf gpd_win_mini_quirk .AUTOMATIC, [])
    ∧ (gpd_fan_hwmon_write ecAllOk (stOf gpd_win_mini_quirk .AUTOMATIC)
        .hwmon_pwm .hwmon_pwm_enable 1).2.1
      = { stOf gpd_win_mini_quirk .AUTOMATIC with
            pwm_enable := gpd_mode_of_val 1 } :=
  ⟨(c8_set_mode_validation ecAllOk (stOf gpd_win_mini_quirk .AUTOMATIC) 5).1
      (by decide),
   (c8_set_mode_validation ecAllOk (stOf gpd_win_mini_quirk .AUTOMATIC) 1).2
      (by decide)⟩

/-- C9: for a valid requested mode the stored mode field always holds the
    newly requested mode after the call (never rolled back), and the
    board-specific transition handler's result, error or not, is returned
    to the caller unchanged. -/
theorem c9_mode_not_rolled_back (ec : EcOracle) (s : gpd_driver_state)
    (val : Int) (h0 : 0 ≤ val) (h3 : val < 3) :
    (gpd_fan_hwmon_write ec s .hwmon_pwm .hwmon_pwm_enable val).1
        = (gpd_set_pwm_enable ec { s with pwm_enable := gpd_mode_of_val val }
             (gpd_mode_of_val val)).1
    ∧ (gpd_fan_hwmon_write ec s .hwmon_pwm .hwmon_pwm_enable val).2.1.pwm_enable
        = gpd_mode_of_val val := by
  have h : ¬¬(0 ≤ val ∧ val < 3) := not_not_intro ⟨h0, h3⟩
  constructor
  · simp only [gpd_fan_hwmon_write]
    rw [if_neg h]
  · simp only [gpd_fan_hwmon_write]
    rw [if_neg h]

/-- C9 witness: on wm2 with an EC whose writes all fail, requesting mode 0
    (DISABLE) stores DISABLE even though the transition handler fails, and
    the handler's error -4 is returned. -/
theorem c9_mode_not_rolled_back_witness :
    ((gpd_fan_hwmon_write ecWriteFail (stOf gpd_wm2_quirk .AUTOMATIC)
          .hwmon_pwm .hwmon_pwm_enable 0).1
        = (gpd_set_pwm_enable ecWriteFail
             { stOf gpd_wm2_quirk .AUTOMATIC with
                 pwm_enable := gpd_mode_of_val 0 } (gpd_mode_of_val 0)).1
      ∧ (gpd_fan_hwmon_write ecWriteFail (stOf gpd_wm2_quirk .AUTOMATIC)
          .hwmon_pwm .hwmon_pwm_enable 0).2.1.pwm_enable = gpd_mode_of_val 0)
    ∧ (gpd_set_pwm_enable ecWriteFail
         { stOf gpd_wm2_quirk .AUTOMATIC with
             pwm_enable := gpd_mode_of_val 0 } (gpd_mode_of_val 0)).1 = -4 :=
  ⟨c9_mode_not_rolled_back ecWriteFail (stOf gpd_wm2_quirk .AUTOMATIC) 0
      (by decide) (by decide),
   by decide⟩

/-- C10: on win_mini, writing pwm1 with value v in [0,255] while the mode is
    DISABLE or AUTOMATIC succeeds, performs no hardware access, and a
    subsequent pwm1 read reports v: the clamped duty is stored before the
    mode-gated board write runs, and the win_mini read path reports the
    stored value directly. -/
theorem c10_win_mini_store_then_read (ec ec2 : EcOracle)
    (s : gpd_driver_state) (v : Int) (now : Nat)
    (hq : s.quirk = gpd_win_mini_quirk)
    (hm : s.pwm_enable = .DISABLE ∨ s.pwm_enable = .AUTOMATIC)
    (h0 : 0 ≤ v) (h255 : v ≤ 255) :
    (gpd_fan_hwmon_write ec s .hwmon_pwm .hwmon_pwm_input v).1 = 0
    ∧ (gpd_fan_hwmon_write ec s .hwmon_pwm .hwmon_pwm_input v).2.2 = []
    ∧ (gpd_read_pwm ec2
         (gpd_fan_hwmon_write ec s .hwmon_pwm .hwmon_pwm_input v).2.1 now).1
        = v := by
  have hnm : s.pwm_enable ≠ .MANUAL := by
    rcases hm with h | h <;> simp [h]
  refine ⟨?_, ?_, ?_⟩ <;>
    simp only [gpd_fan_hwmon_write, gpd_write_pwm, gpd_read_pwm, hq,
      gpd_win_mini_quirk, gpd_win_mini_write_pwm]
  · rw [if_neg hnm]
  · rw [if_neg hnm]
  · simp only [clamp_val, Int.ofNat_eq_natCast]
    omega

/-- C10 witness: writing duty 42 on win_mini in AUTOMATIC mode succeeds with
    no EC access and a subsequent read reports 42. -/
theorem c10_win_mini_store_then_read_witness :
    (gpd_fan_hwmon_write ecAllOk (stOf gpd_win_mini_quirk .AUTOMATIC)
        .hwmon_pwm .hwmon_pwm_input 42).1 = 0
    ∧ (gpd_fan_hwmon_write ecAllOk (stOf gpd_win_mini_quirk .AUTOMATIC)
        .hwmon_pwm .hwmon_pwm_input 42).2.2 = []
    ∧ (gpd_read_pwm ecAllOk
         (gpd_fan_hwmon_write ecAllOk (stOf gpd_win_mini_quirk .AUTOMATIC)
           .hwmon_pwm .hwmon_pwm_input 42).2.1 0).1 = 42 :=
  c10_win_mini_store_then_read ecAllOk ecAllOk
    (stOf gpd_win_mini_quirk .AUTOMATIC) 42 0 rfl (Or.inr rfl)
    (by decide) (by decide)
